import Mathlib

/-!
Shallow embedding of the `shut2` Discord moderation bot (`src/main.rs`):
the hyperlink classifier (`LINK_RE` and the exemption test in `normal_message`),
the per-message enforcement handler (`normal_message`), and the persisted
channel-enablement store (`Settings::load`, `Settings::toggle_channel`).

Machine integers are modelled as `Nat`/`Int` with explicit wrap-around where
the source casts (`u64 as i64`, `i64 as u64`).
-/

/-! ## Hyperlink pattern

The source regex (line 160 of `main.rs`) is
`https?://(www\.)?[-a-zA-Z0-9@:%._\+~#=]{1,256}\.[a-zA-Z0-9()]{1,6}\b([-a-zA-Z0-9()@:%_\+.~#?&/=]*)`
used only through `is_match`.  The final capture group matches the empty
string, so it never affects `is_match`; the matcher below decides whether the
rest of the pattern matches starting at some position of the text.  The word
boundary `\b` is modelled with ASCII word characters (the characters that can
end the `[a-zA-Z0-9()]{1,6}` chunk are ASCII). -/

/-- ASCII word character, as used by the word boundary check. -/
def isWordChar (c : Char) : Bool :=
  c.isAlphanum || c == '_'

/-- Character class `[-a-zA-Z0-9@:%._\+~#=]` of the hostname part. -/
def cls1 (c : Char) : Bool :=
  c.isAlphanum || c == '-' || c == '@' || c == ':' || c == '%' || c == '.' ||
    c == '_' || c == '+' || c == '~' || c == '#' || c == '='

/-- Character class `[a-zA-Z0-9()]` of the TLD part. -/
def cls2 (c : Char) : Bool :=
  c.isAlphanum || c == '(' || c == ')'

/-- Word boundary `\b` between a last consumed character and the rest of the
text: exactly one of the two sides is a word character (end of text counts as
a non-word side). -/
def boundary (prev : Char) (rest : List Char) : Bool :=
  match rest with
  | [] => isWordChar prev
  | c :: _ => isWordChar prev != isWordChar c

/-- Matches `[a-zA-Z0-9()]{1,k}\b` against a prefix of `r` for some length
between 1 and `budget`. -/
def tldFrom (r : List Char) (budget : Nat) : Bool :=
  match budget, r with
  | 0, _ => false
  | _ + 1, [] => false
  | b + 1, c :: rest =>
    if cls2 c then boundary c rest || tldFrom rest b else false

/-- Matches `[-a-zA-Z0-9@:%._\+~#=]{0,budget}\.[a-zA-Z0-9()]{1,6}\b` against a
prefix of `r`, given that at least one hostname character has already been
consumed.  At a literal `.` both readings (the separating dot, or one more
hostname character) are tried. -/
def afterCls1 : List Char → Nat → Bool
  | [], _ => false
  | c :: rest, budget =>
    (if c = '.' then tldFrom rest 6 else false) ||
      (match budget with
       | 0 => false
       | b + 1 => if cls1 c then afterCls1 rest b else false)

/-- Matches `[-a-zA-Z0-9@:%._\+~#=]{1,256}\.[a-zA-Z0-9()]{1,6}\b` against a
prefix of `r`. -/
def hostFrom (r : List Char) : Bool :=
  match r with
  | [] => false
  | c :: rest => if cls1 c then afterCls1 rest 255 else false

/-- Matches `(www\.)?` followed by the hostname pattern against a prefix of
`r`. -/
def afterScheme (r : List Char) : Bool :=
  hostFrom r ||
    (match r with
     | 'w' :: 'w' :: 'w' :: '.' :: rest => hostFrom rest
     | _ => false)

/-- Matches the whole pattern (`https?://` then the rest) against a prefix of
`t`. -/
def linkMatchFrom (t : List Char) : Bool :=
  match t with
  | 'h' :: 't' :: 't' :: 'p' :: r =>
    (match r with
     | 's' :: ':' :: '/' :: '/' :: rest => afterScheme rest
     | _ => false) ||
      (match r with
       | ':' :: '/' :: '/' :: rest => afterScheme rest
       | _ => false)
  | _ => false

/-- Model of `LINK_RE.is_match`: unanchored search, the pattern may match starting at
any position of the text. -/
def linkIsMatch : List Char → Bool
  | [] => false
  | c :: rest => linkMatchFrom (c :: rest) || linkIsMatch rest

/-! ## Message classifier

`normal_message` exempts a message when `link || msg.attachments.len() > 0`
(line 165 of `main.rs`). -/

/-- Exemption test of `normal_message`: hyperlink match on the text, or at
least one attachment. -/
def is_exempt (content : List Char) (attachments : Nat) : Bool :=
  linkIsMatch content || decide (0 < attachments)

example : linkIsMatch "https://example.com/a?b=1".data = true := by decide
example : linkIsMatch "http://www.a.bc".data = true := by decide
example : linkIsMatch [] = false := by decide
example : linkIsMatch "hello world".data = false := by decide
example : linkIsMatch "https://nodothere".data = false := by decide
example : is_exempt [] 0 = false := by decide

/-! ## Message events and the enforcement handler

`normal_message` (lines 152-200 of `main.rs`).  The Discord gateway calls
(`msg.delete`, `channel_id.say`, `reply_msg.delete`) and the sleep are
modelled as an emitted trace of attempted actions; whether each gateway call
succeeds is an oracle.  Each fallible gateway call in the source is followed
by `.unwrap()`, which panics the handler task on failure; this is modelled by
the `panicked` outcome. -/

/-- The fields of a Discord `Message` that `normal_message` reads: the
bot flag of the author and id, the channel id, the text content, and the number of
attachments. -/
structure Msg where
  author_bot : Bool
  author_id : Nat
  channel_id : Nat
  content : List Char
  attachments : Nat

/-- Gateway actions attempted by `normal_message`, in order.  `sendWarning`
records the author id mentioned in the `"{} SHUT!"` reply text. -/
inductive BotAction where
  | deleteOriginal : BotAction
  | sendWarning : Nat → BotAction
  | sleep : Nat → BotAction
  | deleteWarning : BotAction
deriving DecidableEq, Repr

/-- Success oracle for the three fallible gateway calls of `normal_message`. -/
structure Gateway where
  deleteMsgOk : Bool
  sendOk : Bool
  deleteReplyOk : Bool

/-- Outcome of one run of the handler: a normal return, or a panic raised by
an `.unwrap()` on a failed gateway call. -/
inductive HandlerResult where
  | returned : HandlerResult
  | panicked : HandlerResult
deriving DecidableEq, Repr

/-- The `normal_message` hook: ignore bot authors, ignore exempt messages
(hyperlink or attachment), ignore channels not in the enforced set; otherwise
delete the message, send the warning reply mentioning the author, sleep 3
seconds, and delete the warning reply.  Every fallible step is unwrapped, so
its failure panics. -/
def normal_message (g : Gateway) (banned_channels : Finset Nat) (msg : Msg) :
    List BotAction × HandlerResult :=
  if msg.author_bot then ([], .returned)
  else if linkIsMatch msg.content || decide (0 < msg.attachments) then ([], .returned)
  else if msg.channel_id ∉ banned_channels then ([], .returned)
  else if !g.deleteMsgOk then ([.deleteOriginal], .panicked)
  else if !g.sendOk then ([.deleteOriginal, .sendWarning msg.author_id], .panicked)
  else if !g.deleteReplyOk then
    ([.deleteOriginal, .sendWarning msg.author_id, .sleep 3, .deleteWarning], .panicked)
  else
    ([.deleteOriginal, .sendWarning msg.author_id, .sleep 3, .deleteWarning], .returned)

/-! ## The channel-enablement store

`Settings` holds the in-memory `banned_channels : HashSet<ChannelId>` and the
sqlite connection.  The durable table `banned_channels(channel_id INTEGER NOT
NULL)` is modelled as a multiset of `i64` rows (no uniqueness constraint in
the schema).  Channel ids are `u64`; the source stores `channel.0 as i64` and
loads `channel_id as u64`. -/

/-- Twos-complement cast `u64 as i64` applied when binding a channel id into
a sql statement. -/
def toI64 (n : Nat) : Int :=
  if n < 2 ^ 63 then (n : Int) else (n : Int) - 2 ^ 64

/-- Twos-complement cast `i64 as u64` applied when loading a stored row. -/
def fromI64 (z : Int) : Nat :=
  (z % 2 ^ 64).toNat

/-- A sqlite value as pattern-matched by `Settings::load`; payloads of the
non-`Integer` variants are irrelevant to the `if let` in the source and omitted. -/
inductive SqlValue where
  | integer : Int → SqlValue
  | float : SqlValue
  | text : SqlValue
  | binary : SqlValue
  | null : SqlValue
deriving DecidableEq, Repr

/-- Whether a sqlite value is an `Integer`. -/
def SqlValue.isInteger : SqlValue → Bool
  | .integer _ => true
  | _ => false

/-- The `Settings` state: the in-memory enforced set and the rows of the
durable `banned_channels` table. -/
structure SettingsM where
  banned_channels : Finset Nat
  db : Multiset Int
deriving DecidableEq

/-- One iteration of the row loop in `Settings::load`: on an `Integer` row
insert `channel_id as u64` into the set, otherwise leave the set unchanged
(the `if let` does not match). -/
def loadStep (acc : Finset Nat) (r : SqlValue) : Finset Nat :=
  match r with
  | .integer z => insert (fromI64 z) acc
  | _ => acc

/-- Model of `Settings::load` restricted to populating the set: scan the rows of the
`banned_channels` table and insert `channel_id as u64` for every row whose
value is an `Integer`, skipping other rows. -/
def Settings.load (rows : List SqlValue) : Finset Nat :=
  rows.foldl loadStep ∅

/-- Model of `Settings::toggle_channel`.  `dbOk` is the success oracle of the one sql
write the call performs.  In the remove branch the source mutates the
in-memory set first (`self.banned_channels.remove(&channel)`) and then runs
the `DELETE`; in the insert branch it runs the `INSERT` first and inserts
into the set afterwards.  A failing write is unwrapped, i.e. panics: the
result is `none` and the state is whatever had been mutated up to the panic. -/
def Settings.toggle_channel (s : SettingsM) (channel : Nat) (dbOk : Bool) :
    SettingsM × Option Bool :=
  if channel ∈ s.banned_channels then
    if dbOk then
      (⟨s.banned_channels.erase channel, s.db.filter (fun r => r ≠ toI64 channel)⟩,
        some true)
    else
      (⟨s.banned_channels.erase channel, s.db⟩, none)
  else
    if dbOk then
      (⟨insert channel s.banned_channels, toI64 channel ::ₘ s.db⟩, some false)
    else
      (s, none)

/-- Consistency between the durable rows and the in-memory set: the table
holds exactly one row per enforced channel, and every enforced channel id is
a `u64`. -/
def consistent (s : SettingsM) : Prop :=
  s.db = s.banned_channels.val.map toI64 ∧ ∀ c ∈ s.banned_channels, c < 2 ^ 64

example :
    (Settings.toggle_channel ⟨∅, 0⟩ 42 true) =
      (⟨{42}, {toI64 42}⟩, some false) := by decide
example :
    (Settings.toggle_channel ⟨{42}, {toI64 42}⟩ 42 true) = (⟨∅, 0⟩, some true) := by
  decide

/-! ## Claims -/

/-- C1: for every message from a non-bot author that is not exempt (no
hyperlink match and zero attachments) and whose channel is in the enforced
set, the handler performs exactly: delete the original message, send a
warning reply mentioning the author, wait a fixed 3-second delay, delete the
warning reply (gateway calls succeeding). -/
theorem c1_enforcement_sequence (banned : Finset Nat) (msg : Msg)
    (hbot : msg.author_bot = false)
    (hlink : linkIsMatch msg.content = false)
    (hatt : msg.attachments = 0)
    (hch : msg.channel_id ∈ banned) :
    normal_message ⟨true, true, true⟩ banned msg =
      ([.deleteOriginal, .sendWarning msg.author_id, .sleep 3, .deleteWarning],
        .returned) := by
  simp [normal_message, hbot, hlink, hatt, hch]

/-- Witness for C1: an empty non-bot message in enforced channel 42. -/
theorem c1_enforcement_sequence_witness :
    normal_message ⟨true, true, true⟩ {42} ⟨false, 7, 42, [], 0⟩ =
      ([.deleteOriginal, .sendWarning 7, .sleep 3, .deleteWarning], .returned) :=
  c1_enforcement_sequence {42} ⟨false, 7, 42, [], 0⟩ rfl rfl rfl (by decide)

/-- C2: `toggle_channel` returns `true` iff the channel was enforced before
the call; returning `true` means it was removed from both the in-memory set
and the durable rows, returning `false` means it was inserted into both. -/
theorem c2_toggle_previous_state (s : SettingsM) (c : Nat) :
    ((Settings.toggle_channel s c true).2 = some true ↔ c ∈ s.banned_channels)
    ∧ ((Settings.toggle_channel s c true).2 = some true →
        c ∉ (Settings.toggle_channel s c true).1.banned_channels ∧
          toI64 c ∉ (Settings.toggle_channel s c true).1.db)
    ∧ ((Settings.toggle_channel s c true).2 = some false →
        c ∈ (Settings.toggle_channel s c true).1.banned_channels ∧
          toI64 c ∈ (Settings.toggle_channel s c true).1.db) := by
  by_cases hc : c ∈ s.banned_channels <;>
    simp [Settings.toggle_channel, hc, Multiset.mem_filter]

/-- Witness for C2: toggling channel 3 out of the singleton store. -/
theorem c2_toggle_previous_state_witness :
    3 ∉ (Settings.toggle_channel ⟨{3}, {toI64 3}⟩ 3 true).1.banned_channels ∧
      toI64 3 ∉ (Settings.toggle_channel ⟨{3}, {toI64 3}⟩ 3 true).1.db :=
  (c2_toggle_previous_state ⟨{3}, {toI64 3}⟩ 3).2.1 (by decide)

/-- C3: a message is exempt iff its text matches the hyperlink pattern or it
has at least one attachment; empty text with zero attachments is not exempt;
at least one attachment is exempt regardless of text. -/
theorem c3_exempt_iff (content : List Char) (attachments : Nat) :
    (is_exempt content attachments = true ↔
      linkIsMatch content = true ∨ 0 < attachments)
    ∧ is_exempt [] 0 = false
    ∧ (0 < attachments → is_exempt content attachments = true) := by
  refine ⟨by simp [is_exempt], by decide, fun h => by simp [is_exempt, h]⟩

/-- Witness for C3: one attachment with non-matching text is exempt. -/
theorem c3_exempt_iff_witness : is_exempt ['a'] 1 = true :=
  (c3_exempt_iff ['a'] 1).2.2 (by decide)

/-- C7: a bot-authored message never triggers any enforcement action, for
every gateway oracle, enforced set and message content. -/
theorem c7_bot_ignored (g : Gateway) (banned : Finset Nat) (msg : Msg)
    (hbot : msg.author_bot = true) :
    normal_message g banned msg = ([], .returned) := by
  simp [normal_message, hbot]

/-- Any text containing `https://example.com/a?b=1` as a substring matches
the hyperlink pattern: the match starts right at the substring (`example` as
hostname, `com` as TLD, word boundary before the `/`). -/
theorem linkIsMatch_example_append (pre suf : List Char) :
    linkIsMatch (pre ++ "https://example.com/a?b=1".data ++ suf) = true := by
  induction pre with
  | nil => rfl
  | cons p pre ih =>
    have hstep :
        linkIsMatch ((p :: pre) ++ "https://example.com/a?b=1".data ++ suf) =
          (linkMatchFrom ((p :: pre) ++ "https://example.com/a?b=1".data ++ suf) ||
            linkIsMatch (pre ++ "https://example.com/a?b=1".data ++ suf)) := rfl
    rw [hstep, ih, Bool.or_true]

/-- C8: every message whose text contains the substring
`https://example.com/a?b=1` is exempt, regardless of the rest of the text and
of the attachment count. -/
theorem c8_example_link_exempt (content : List Char) (attachments : Nat)
    (pre suf : List Char)
    (h : content = pre ++ "https://example.com/a?b=1".data ++ suf) :
    is_exempt content attachments = true := by
  subst h
  unfold is_exempt
  rw [linkIsMatch_example_append, Bool.true_or]

/-- Witness for C8: the link embedded in surrounding text, zero
attachments. -/
theorem c8_example_link_exempt_witness :
    is_exempt "xx https://example.com/a?b=1 yy".data 0 = true :=
  c8_example_link_exempt "xx https://example.com/a?b=1 yy".data 0
    "xx ".data " yy".data (by decide)

/-- Witness for C7: a bot message in an enforced channel with non-exempt
content. -/
theorem c7_bot_ignored_witness :
    normal_message ⟨true, true, true⟩ {1} ⟨true, 2, 1, ['x'], 0⟩ =
      ([], .returned) :=
  c7_bot_ignored ⟨true, true, true⟩ {1} ⟨true, 2, 1, ['x'], 0⟩ rfl

/-- The `u64 -> i64 -> u64` cast round-trip is the identity on `u64` values. -/
theorem fromI64_toI64 (n : Nat) (h : n < 2 ^ 64) : fromI64 (toI64 n) = n := by
  unfold toI64 fromI64
  split <;> omega

/-- Folding the row loop of `Settings::load` over integer rows written by
`toggle_channel` accumulates exactly the stored ids. -/
theorem load_foldl_integer_rows (ids : List Nat) (acc : Finset Nat)
    (h : ∀ i ∈ ids, i < 2 ^ 64) :
    List.foldl loadStep acc (ids.map fun i => SqlValue.integer (toI64 i)) =
      acc ∪ ids.toFinset := by
  induction ids generalizing acc with
  | nil => simp
  | cons i ids ih =>
    simp only [List.map_cons, List.foldl_cons, loadStep]
    rw [fromI64_toI64 i (h i (by simp))]
    rw [ih (insert i acc) (fun j hj => h j (by simp [hj]))]
    ext x
    simp only [Finset.mem_union, Finset.mem_insert, List.toFinset_cons]
    tauto

/-- C9: channel ids survive persistence unchanged: the `u64 as i64` store
cast followed by the `i64 as u64` load cast is the identity, and reloading a
table whose rows are the persisted ids yields exactly those ids. -/
theorem c9_persistence_roundtrip :
    (∀ n : Nat, n < 2 ^ 64 → fromI64 (toI64 n) = n)
    ∧ ∀ ids : List Nat, (∀ i ∈ ids, i < 2 ^ 64) →
        Settings.load (ids.map fun i => SqlValue.integer (toI64 i)) =
          ids.toFinset := by
  refine ⟨fromI64_toI64, fun ids h => ?_⟩
  unfold Settings.load
  rw [load_foldl_integer_rows ids ∅ h]
  simp

/-- Witness for C9: an id above `2^63` (negative as `i64`) round-trips, and a
one-row table reloads to the singleton set. -/
theorem c9_persistence_roundtrip_witness :
    fromI64 (toI64 (2 ^ 63 + 5)) = 2 ^ 63 + 5 ∧
      Settings.load [SqlValue.integer (toI64 42)] = ([42] : List Nat).toFinset :=
  ⟨c9_persistence_roundtrip.1 (2 ^ 63 + 5) (by norm_num),
    c9_persistence_roundtrip.2 [42] (by intro i hi; simp at hi; omega)⟩

/-- C10: a row whose value is not an `Integer` is silently skipped by
`Settings::load` and contributes nothing to the enforced set. -/
theorem c10_load_skips_noninteger (pre post : List SqlValue) (v : SqlValue)
    (h : v.isInteger = false) :
    Settings.load (pre ++ v :: post) = Settings.load (pre ++ post) := by
  have hv : ∀ acc : Finset Nat, loadStep acc v = acc := by
    cases v <;> intro acc <;> first
      | rfl
      | simp [SqlValue.isInteger] at h
  unfold Settings.load
  rw [List.foldl_append, List.foldl_append, List.foldl_cons, hv]

/-- Witness for C10: a `Text` row between integer rows is skipped. -/
theorem c10_load_skips_noninteger_witness :
    Settings.load [SqlValue.integer 5, SqlValue.text] =
      Settings.load [SqlValue.integer 5] :=
  c10_load_skips_noninteger [SqlValue.integer 5] [] SqlValue.text rfl

/-- The store cast `u64 as i64` is injective on `u64` values. -/
theorem toI64_inj (a b : Nat) (ha : a < 2 ^ 64) (hb : b < 2 ^ 64)
    (h : toI64 a = toI64 b) : a = b := by
  unfold toI64 at h
  split at h <;> split at h <;> omega

/-- Deleting the rows of channel `c` from a consistent table yields the table
of the enforced set without `c`. -/
theorem filter_ne_toI64_map (t : Finset Nat) (c : Nat)
    (hb : ∀ x ∈ t, x < 2 ^ 64) (hc64 : c < 2 ^ 64) :
    (t.val.map toI64).filter (fun r => r ≠ toI64 c) =
      (t.erase c).val.map toI64 := by
  rw [Multiset.filter_map]
  have h1 : t.val.filter ((fun r => r ≠ toI64 c) ∘ toI64) =
      t.val.filter (fun x => x ≠ c) :=
    Multiset.filter_congr fun x hx => by
      simp only [Function.comp_apply, ne_eq]
      constructor
      · intro hne heq
        exact hne (heq ▸ rfl)
      · intro hne heq
        exact hne (toI64_inj x c (hb x hx) hc64 heq)
  rw [h1, Finset.erase_val, Multiset.Nodup.erase_eq_filter c t.nodup]

/-- C4: from a consistent store, toggling a channel twice restores the store
exactly, and the durable rows coincide with the in-memory set after each of
the two calls. -/
theorem c4_toggle_involutive (s : SettingsM) (c : Nat)
    (hcons : consistent s) (hc64 : c < 2 ^ 64) :
    (Settings.toggle_channel (Settings.toggle_channel s c true).1 c true).1 = s
    ∧ consistent (Settings.toggle_channel s c true).1
    ∧ consistent
        (Settings.toggle_channel (Settings.toggle_channel s c true).1 c true).1 := by
  obtain ⟨hdb, hb⟩ := hcons
  by_cases hc : c ∈ s.banned_channels
  case pos =>
    have h1 : Settings.toggle_channel s c true =
        (⟨s.banned_channels.erase c, s.db.filter (fun r => r ≠ toI64 c)⟩,
          some true) := by
      simp [Settings.toggle_channel, hc]
    have hdb1 : s.db.filter (fun r => r ≠ toI64 c) =
        (s.banned_channels.erase c).val.map toI64 := by
      rw [hdb]
      exact filter_ne_toI64_map _ _ hb hc64
    have hc2 : c ∉ s.banned_channels.erase c := Finset.not_mem_erase c _
    have h2 : Settings.toggle_channel (Settings.toggle_channel s c true).1 c true =
        (⟨insert c (s.banned_channels.erase c),
          toI64 c ::ₘ s.db.filter (fun r => r ≠ toI64 c)⟩, some false) := by
      rw [h1]
      simp [Settings.toggle_channel, hc2]
    have hset : insert c (s.banned_channels.erase c) = s.banned_channels :=
      Finset.insert_erase hc
    have hdb2 : toI64 c ::ₘ s.db.filter (fun r => r ≠ toI64 c) = s.db := by
      rw [hdb1, Finset.erase_val, ← Multiset.map_cons,
        Multiset.cons_erase (Finset.mem_def.mp hc), hdb]
    have hrestore :
        (Settings.toggle_channel (Settings.toggle_channel s c true).1 c true).1 = s := by
      rw [h2]
      show (⟨_, _⟩ : SettingsM) = s
      rw [hset, hdb2]
    refine ⟨hrestore, ?_, ?_⟩
    · rw [h1]
      exact ⟨hdb1, fun x hx => hb x (Finset.mem_of_mem_erase hx)⟩
    · rw [hrestore]
      exact ⟨hdb, hb⟩
  case neg =>
    have h1 : Settings.toggle_channel s c true =
        (⟨insert c s.banned_channels, toI64 c ::ₘ s.db⟩, some false) := by
      simp [Settings.toggle_channel, hc]
    have hc2 : c ∈ insert c s.banned_channels := Finset.mem_insert_self c _
    have h2 : Settings.toggle_channel (Settings.toggle_channel s c true).1 c true =
        (⟨(insert c s.banned_channels).erase c,
          (toI64 c ::ₘ s.db).filter (fun r => r ≠ toI64 c)⟩, some true) := by
      rw [h1]
      simp [Settings.toggle_channel, hc2]
    have hset : (insert c s.banned_channels).erase c = s.banned_channels :=
      Finset.erase_insert hc
    have hdbf : (toI64 c ::ₘ s.db).filter (fun r => r ≠ toI64 c) = s.db := by
      rw [Multiset.filter_cons_of_neg _ (by simp)]
      refine Multiset.filter_eq_self.mpr fun r hr => ?_
      rw [hdb] at hr
      obtain ⟨x, hx, rfl⟩ := Multiset.mem_map.mp hr
      intro heq
      exact hc (toI64_inj x c (hb x hx) hc64 heq ▸ hx)
    have hrestore :
        (Settings.toggle_channel (Settings.toggle_channel s c true).1 c true).1 = s := by
      rw [h2]
      show (⟨_, _⟩ : SettingsM) = s
      rw [hset, hdbf]
    refine ⟨hrestore, ?_, ?_⟩
    · rw [h1]
      refine ⟨?_, fun x hx => ?_⟩
      · rw [Finset.insert_val_of_not_mem hc, Multiset.map_cons, hdb]
      · rcases Finset.mem_insert.mp hx with rfl | hx2
        · exact hc64
        · exact hb x hx2
    · rw [hrestore]
      exact ⟨hdb, hb⟩

/-- Witness for C4: toggling channel 42 twice on the empty store. -/
theorem c4_toggle_involutive_witness :
    (Settings.toggle_channel (Settings.toggle_channel ⟨∅, 0⟩ 42 true).1 42 true).1 =
      (⟨∅, 0⟩ : SettingsM) :=
  (c4_toggle_involutive ⟨∅, 0⟩ 42 ⟨rfl, by simp⟩ (by norm_num)).1

/-- C5: evaluation of `toggle_channel` at the failing input.  With channel 42
enforced and the `DELETE` write failing, the call panics (`none`) after the
in-memory set has already dropped 42 (`self.banned_channels.remove` runs
before the sql statement) while the durable row for 42 remains: the in-memory
set and the durable rows diverge, contradicting the claimed all-or-nothing
behaviour. -/
theorem c5_divergence_on_failed_delete :
    (Settings.toggle_channel ⟨{42}, {toI64 42}⟩ 42 false).2 = none ∧
      42 ∉ (Settings.toggle_channel ⟨{42}, {toI64 42}⟩ 42 false).1.banned_channels ∧
      toI64 42 ∈ (Settings.toggle_channel ⟨{42}, {toI64 42}⟩ 42 false).1.db := by
  decide

/-- C6 counterexample: with the warning-reply delete failing, the handler run
for a concrete enforced non-exempt message ends in a panic (the `.unwrap()`
on line 199), not in a logged normal return, so the failure does crash that
message-event-handling path. -/
theorem c6_counterexample_panic :
    (normal_message ⟨true, true, false⟩ {42} ⟨false, 7, 42, [], 0⟩).2 =
        HandlerResult.panicked ∧
      HandlerResult.panicked ≠ HandlerResult.returned := by
  decide

/-- C6 (amended): if deleting the warning reply after the 3-second delay
fails, the `.unwrap()` panics and the handler task of that message crashes after
having attempted the full sequence; messages are handled by independent
tasks, so (the handler being a per-message function) other messages are
unaffected. -/
theorem c6_amended_unwrap_panics (banned : Finset Nat) (msg : Msg)
    (hbot : msg.author_bot = false)
    (hlink : linkIsMatch msg.content = false)
    (hatt : msg.attachments = 0)
    (hch : msg.channel_id ∈ banned) :
    normal_message ⟨true, true, false⟩ banned msg =
      ([.deleteOriginal, .sendWarning msg.author_id, .sleep 3, .deleteWarning],
        .panicked) := by
  simp [normal_message, hbot, hlink, hatt, hch]

/-- Witness for the amended C6: a concrete enforced non-exempt message with a
failing warning-reply delete. -/
theorem c6_amended_unwrap_panics_witness :
    normal_message ⟨true, true, false⟩ {9} ⟨false, 1, 9, [], 0⟩ =
      ([.deleteOriginal, .sendWarning 1, .sleep 3, .deleteWarning], .panicked) :=
  c6_amended_unwrap_panics {9} ⟨false, 1, 9, [], 0⟩ rfl rfl rfl (by decide)
